import Mathlib

/-!
Verification of the FH5 telemetry ingestion, decode, buffering and replay
pipeline (src/main.py) against its specification.

The Python source is shallowly embedded: bytes are `List Nat` (each entry a
byte value), Python floats are modelled as exact rationals `ℚ`, `deque`
ring buffers as lists truncated from the left, and CSV fields as a small
inductive (`empty`, numeric, malformed) matching the three behaviours of
`float(s) if s else 0.0`.
-/

set_option maxRecDepth 100000

namespace FH5

/-! ## Packet decoder (`ForzaDataPacket`) -/

/-- A primitive wire field kind of the `struct` format string
`<iIf…fi…if…fHBBBBBBbbb` (little-endian, no padding). -/
inductive FieldKind
  | i32
  | u32
  | f32
  | u16
  | u8
  | i8
deriving DecidableEq, Repr

/-- Byte width of a wire field, as `struct.calcsize` counts it. -/
def fieldSize : FieldKind → Nat
  | .i32 => 4
  | .u32 => 4
  | .f32 => 4
  | .u16 => 2
  | .u8 => 1
  | .i8 => 1

/-- `ForzaDataPacket.dash_format` as a list of field kinds: the format string
is `<` then `iI`, 51 `f`, 5 `i`, 17 `f`, `H`, 6 `B`, 3 `b` (85 fields). -/
def dash_format : List FieldKind :=
  [.i32, .u32] ++ List.replicate 51 .f32 ++ List.replicate 5 .i32 ++
    List.replicate 17 .f32 ++ [.u16] ++ List.replicate 6 .u8 ++
    List.replicate 3 .i8

/-- Total byte size required by a format (`struct.calcsize`). -/
def calcsize (fmt : List FieldKind) : Nat :=
  (fmt.map fieldSize).sum

/-- A decoded scalar. Integer kinds decode to their numeric value; a 32-bit
IEEE float is kept as its raw little-endian bit pattern (its real-number
reading is irrelevant to the layout claims). -/
inductive Value
  | int (z : Int)
  | uint (n : Nat)
  | float32 (bits : Nat)
deriving DecidableEq, Repr

/-- Little-endian value of a byte list. -/
def leVal (bytes : List Nat) : Nat :=
  bytes.foldr (fun b acc => b + 256 * acc) 0

/-- Two's-complement reading of a `w`-byte unsigned value. -/
def toSigned (w : Nat) (n : Nat) : Int :=
  if n < 2 ^ (8 * w - 1) then (n : Int) else (n : Int) - 2 ^ (8 * w)

/-- Decode one field from its bytes. -/
def decodeField : FieldKind → List Nat → Value
  | .i32, bs => .int (toSigned 4 (leVal bs))
  | .u32, bs => .uint (leVal bs)
  | .f32, bs => .float32 (leVal bs)
  | .u16, bs => .uint (leVal bs)
  | .u8, bs => .uint (leVal bs)
  | .i8, bs => .int (toSigned 1 (leVal bs))

/-- Decode a buffer field by field, consuming `fieldSize` bytes per field. -/
def unpackFields : List FieldKind → List Nat → List Value
  | [], _ => []
  | k :: ks, buf => decodeField k (buf.take (fieldSize k)) :: unpackFields ks (buf.drop (fieldSize k))

/-- `struct.unpack`: fails unless the buffer length is exactly `calcsize`. -/
def unpack (fmt : List FieldKind) (buf : List Nat) : Option (List Value) :=
  if buf.length = calcsize fmt then some (unpackFields fmt buf) else none

/-- Decode failures of `ForzaDataPacket.__init__`: the explicit short-packet
`ValueError` and the wrapped `struct.unpack` failure. -/
inductive DecodeError
  | incompletePacket
  | malformedLayout
deriving DecidableEq, Repr

/-- `ForzaDataPacket.sled_props` (58 names). -/
def sled_props : List String :=
  ["is_race_on", "timestamp_ms",
   "engine_max_rpm", "engine_idle_rpm", "current_engine_rpm",
   "acceleration_x", "acceleration_y", "acceleration_z",
   "velocity_x", "velocity_y", "velocity_z",
   "angular_velocity_x", "angular_velocity_y", "angular_velocity_z",
   "yaw", "pitch", "roll",
   "norm_suspension_travel_FL", "norm_suspension_travel_FR",
   "norm_suspension_travel_RL", "norm_suspension_travel_RR",
   "tire_slip_ratio_FL", "tire_slip_ratio_FR",
   "tire_slip_ratio_RL", "tire_slip_ratio_RR",
   "wheel_rotation_speed_FL", "wheel_rotation_speed_FR",
   "wheel_rotation_speed_RL", "wheel_rotation_speed_RR",
   "wheel_on_rumble_strip_FL", "wheel_on_rumble_strip_FR",
   "wheel_on_rumble_strip_RL", "wheel_on_rumble_strip_RR",
   "wheel_in_puddle_FL", "wheel_in_puddle_FR",
   "wheel_in_puddle_RL", "wheel_in_puddle_RR",
   "surface_rumble_FL", "surface_rumble_FR",
   "surface_rumble_RL", "surface_rumble_RR",
   "tire_slip_angle_FL", "tire_slip_angle_FR",
   "tire_slip_angle_RL", "tire_slip_angle_RR",
   "tire_combined_slip_FL", "tire_combined_slip_FR",
   "tire_combined_slip_RL", "tire_combined_slip_RR",
   "suspension_travel_meters_FL", "suspension_travel_meters_FR",
   "suspension_travel_meters_RL", "suspension_travel_meters_RR",
   "car_ordinal", "car_class", "car_performance_index",
   "drivetrain_type", "num_cylinders"]

/-- `ForzaDataPacket.dash_props` (27 names). -/
def dash_props : List String :=
  ["position_x", "position_y", "position_z",
   "speed", "power", "torque",
   "tire_temp_FL", "tire_temp_FR",
   "tire_temp_RL", "tire_temp_RR",
   "boost", "fuel", "dist_traveled",
   "best_lap_time", "last_lap_time",
   "cur_lap_time", "cur_race_time",
   "lap_no", "race_pos",
   "accel", "brake", "clutch", "handbrake",
   "gear", "steer",
   "norm_driving_line", "norm_ai_brake_diff"]

/-- `ForzaDataPacket.get_props`: the schema channel order. -/
def get_props : List String :=
  sled_props ++ dash_props

/-- A decoded frame: the ordered channel-name/value pairs produced by
`zip(self.get_props(), vals)` in `ForzaDataPacket.__init__` / `to_dict`. -/
def Frame : Type :=
  List (String × Value)

/-- `ForzaDataPacket.__init__`: reject packets shorter than 232 bytes,
excise the reserved gap (`data[:232] + data[244:323]`), then unpack the
concatenation against `dash_format` and bind the values to the props. -/
def decode (data : List Nat) : Except DecodeError Frame :=
  if data.length < 232 then .error .incompletePacket
  else
    match unpack dash_format (data.take 232 ++ (data.drop 244).take 79) with
    | none => .error .malformedLayout
    | some vals => .ok (get_props.zip vals)

theorem unpackFields_length (fmt : List FieldKind) (buf : List Nat) :
    (unpackFields fmt buf).length = fmt.length := by
  induction fmt generalizing buf with
  | nil => rfl
  | cons k ks ih => simp [unpackFields, ih]

theorem calcsize_dash_format : calcsize dash_format = 311 := by decide

theorem get_props_length : get_props.length = 85 := by decide

theorem dash_format_length : dash_format.length = 85 := by decide

/-! ## Transforms (`ForzaTelemetryApp.buffer_data` patch map) -/

/-- `scale_controls`: 0–255 control input to percent. -/
def scale_controls (val : ℚ) : ℚ :=
  val * 100 / 255

/-- `norm_steer`: signed steering byte to percent of 127. -/
def norm_steer (val : ℚ) : ℚ :=
  val * 100 / 127

/-- `to_mph`: meters/second to miles/hour. -/
def to_mph (val : ℚ) : ℚ :=
  val * 2.23694

/-- `to_hp`: watts to horsepower. -/
def to_hp (val : ℚ) : ℚ :=
  val / 745.7

/-- `clamp_zero`: clamp negatives to zero. -/
def clamp_zero (val : ℚ) : ℚ :=
  max val 0

/-- `patch_map`: the channel-to-transform binding of `buffer_data`. -/
def patch_map : List (String × (ℚ → ℚ)) :=
  [("accel", scale_controls),
   ("brake", scale_controls),
   ("clutch", scale_controls),
   ("handbrake", scale_controls),
   ("steer", norm_steer),
   ("speed", to_mph),
   ("power", to_hp),
   ("torque", clamp_zero),
   ("boost", clamp_zero)]

/-- `patch_map[key](val) if key in patch_map else val`. -/
def applyTransform (key : String) (val : ℚ) : ℚ :=
  match patch_map.lookup key with
  | some f => f val
  | none => val

/-! ## Window model (`TelemetryChart`)

`self.data` is a `deque(maxlen=cap)`: extending keeps the last `cap`
entries. `cap` models the deque's current `maxlen` (initially
`buffer_len`; replaced together with the data by a replay seek). -/

/-- The last `n` entries of a list: `deque` truncation from the left. -/
def takeRight (l : List ℚ) (n : Nat) : List ℚ :=
  l.drop (l.length - n)

/-- The y-axis range `TelemetryChart.add_values` derives after a mutation:
`min`/`max` over the contents, widened by 0.1 each way when flat; no
update when the window is empty (`if self.data:`). -/
def chartRange : List ℚ → Option (ℚ × ℚ)
  | [] => none
  | x :: xs =>
    let mn := xs.foldl min x
    let mx := xs.foldl max x
    if mn = mx then some (mn - 1 / 10, mx + 1 / 10) else some (mn, mx)

/-- A `TelemetryChart`'s mutable state: ring-buffer capacity, contents,
and the current y-axis range (`none` until first set). -/
structure Chart where
  cap : Nat
  data : List ℚ
  rangeY : Option (ℚ × ℚ)
deriving DecidableEq, Repr

/-- `TelemetryChart.add_values`: `self.data.extend(vals)` under `maxlen`,
then recompute the y-axis range when the window is nonempty. -/
def add_values (c : Chart) (vals : List ℚ) : Chart :=
  let d := takeRight (c.data ++ vals) c.cap
  { c with
    data := d
    rangeY := match chartRange d with
      | none => c.rangeY
      | some r => some r }

/-- `TelemetryChart.set_buffer_len`: `old_data = list(self.data)[-length:]`
(note Python's `[-0:]` is the whole list), then
`deque(old_data, maxlen=length)` keeps the last `length` of it. -/
def set_buffer_len (c : Chart) (n : Nat) : Chart :=
  let old := if n = 0 then c.data else takeRight c.data n
  { c with cap := n, data := takeRight old n }

/-! ## Chart categories, data buffer and CSV logging (`ForzaTelemetryApp`) -/

/-- `ForzaTelemetryApp.categories`: tab name to charted channel names. -/
def categories : List (String × List String) :=
  [("Engine / Speed",
    ["current_engine_rpm", "engine_idle_rpm", "power", "torque", "speed", "boost"]),
   ("Suspension",
    ["norm_suspension_travel_FL", "norm_suspension_travel_FR",
     "norm_suspension_travel_RL", "norm_suspension_travel_RR",
     "suspension_travel_meters_FL", "suspension_travel_meters_FR",
     "suspension_travel_meters_RL", "suspension_travel_meters_RR"]),
   ("Braking / Controls",
    ["accel", "brake", "clutch", "handbrake", "gear", "steer"]),
   ("Wheel / Tire",
    ["tire_slip_ratio_FL", "tire_slip_ratio_FR",
     "tire_slip_ratio_RL", "tire_slip_ratio_RR",
     "tire_temp_FL", "tire_temp_FR",
     "tire_temp_RL", "tire_temp_RR"]),
   ("Position / Acceleration",
    ["position_x", "position_z", "acceleration_x", "acceleration_z",
     "velocity_x", "velocity_z"])]

/-- `self.charts.keys()`: insertion order of `_setup_charts`, i.e. the
category lists concatenated in declaration order. -/
def chartKeys : List String :=
  (categories.map Prod.snd).flatten

/-- `self.data_buffer.keys()`: built as `{k: deque() for k in
self.charts.keys()}`, so the same order as `chartKeys`. -/
def dataBufferKeys : List String :=
  chartKeys

/-- The header row `_start_logging` writes:
`['timestamp'] + list(self.data_buffer.keys())`. -/
def logHeader : List String :=
  "timestamp" :: dataBufferKeys

/-- One stored CSV field, as the replay reader treats it:
empty (falsy, coerced to `0.0`), a numeric literal, or a non-empty
string `float()` rejects with `ValueError`. -/
inductive CsvField
  | empty
  | num (q : ℚ)
  | malformed
deriving DecidableEq, Repr

/-- `float(frame_val) if frame_val else 0.0`, with `ValueError` as `none`. -/
def parseField : CsvField → Option ℚ
  | .empty => some 0
  | .num q => some q
  | .malformed => none

/-- The data cells of the row `_log_to_file` writes for a snapshot:
`data_dict.get(key, '')` for each buffer key, in buffer-key order. -/
def logRowCells (snapshot : List (String × ℚ)) : List CsvField :=
  dataBufferKeys.map fun k =>
    match snapshot.lookup k with
    | some v => .num v
    | none => .empty

/-! ## Live ingestion (`buffer_data`, `flush_data_buffer`) -/

/-- A value arriving in a decoded frame dict: numeric or not
(`isinstance(val, (int, float))`). -/
inductive PyVal
  | num (q : ℚ)
  | other
deriving DecidableEq, Repr

/-- The per-frame work of `buffer_data`: keep the entries whose key is a
buffer key and whose value is numeric, transformed via `patch_map`.
These pairs are appended to the buffers and form `raw_snapshot`. -/
def processFrame (frame : List (String × PyVal)) : List (String × ℚ) :=
  frame.filterMap fun kv =>
    match kv.2 with
    | .num v => if dataBufferKeys.contains kv.1 then some (kv.1, applyTransform kv.1 v) else none
    | .other => none

/-- Append a frame's transformed values to the per-channel buffers. -/
def appendToBuffers (buffers : List (String × List ℚ)) (frame : List (String × PyVal)) :
    List (String × List ℚ) :=
  buffers.map fun kb =>
    (kb.1, kb.2 ++ ((processFrame frame).filter (fun p => p.1 = kb.1)).map Prod.snd)

/-- `flush_data_buffer`, chart side: every chart whose buffer entry is
nonempty receives the accumulated values via `add_values`. -/
def flushCharts (buffers : List (String × List ℚ)) (charts : List (String × Chart)) :
    List (String × Chart) :=
  charts.map fun kc =>
    match buffers.lookup kc.1 with
    | some (v :: vs) => (kc.1, add_values kc.2 (v :: vs))
    | _ => kc

/-- `flush_data_buffer`, buffer side: every entry is cleared. -/
def flushBuffers (buffers : List (String × List ℚ)) : List (String × List ℚ) :=
  buffers.map fun kb => (kb.1, ([] : List ℚ))

/-! ## Replay engine (`open_log_file`, `update_replay_frame`) -/

/-- One loaded replay row: the `csv.DictReader` mapping from header name to
stored field (a missing key reads as empty, like `.get(key, '')`). -/
def Row : Type :=
  List (String × CsvField)

/-- `self.replay_data[i].get(key, '')`. -/
def rowGet (row : Row) (key : String) : CsvField :=
  match row.lookup key with
  | some f => f
  | none => .empty

/-- Sequence a list of parses, failing at the first `ValueError` the way
the `for i in range(start, end)` loop does. -/
def seqOpt : List (Option ℚ) → Option (List ℚ)
  | [] => some []
  | none :: _ => none
  | some q :: rest => (seqOpt rest).map (q :: ·)

/-- The `vals` list `update_replay_frame` builds for one channel: rows
`start = max(0, index - ws + 1)` through `index`, each field coerced to
`0.0` when empty; `none` when some field raises `ValueError`. -/
def replayWindowVals (replay : List Row) (key : String) (index ws : Nat) : Option (List ℚ) :=
  seqOpt ((List.range' (index + 1 - ws) (index + 1 - (index + 1 - ws))).map
    fun i => parseField (rowGet (replay.getD i []) key))

/-- The per-channel body of `update_replay_frame`'s `try` block: on parse
success, `chart.data = deque(vals, maxlen=ws)` then
`chart.add_values(list(chart.data))` (which extends the deque with a copy
of itself), then the explicit y-axis range lock over the resulting data;
on `ValueError` the chart is left untouched. -/
def chartSeekOne (replay : List Row) (key : String) (index ws : Nat) (c : Chart) : Chart :=
  match replayWindowVals replay key index ws with
  | none => c
  | some vals =>
    let c1 : Chart := { c with cap := ws, data := takeRight vals ws }
    let c2 := add_values c1 c1.data
    match chartRange c2.data with
    | none => c2
    | some r => { c2 with rangeY := some r }

/-- `update_replay_frame`: a no-op when no replay data is loaded or the
index is out of range; otherwise each chart is updated independently with
the fixed `window_size = 150`. -/
def update_replay_frame (replay : List Row) (index : Nat) (charts : List (String × Chart)) :
    List (String × Chart) :=
  if replay.length ≤ index then charts
  else charts.map fun kc => (kc.1, chartSeekOne replay kc.1 index 150 kc.2)

/-! ## Helper lemmas -/

theorem takeRight_length (l : List ℚ) (n : Nat) : (takeRight l n).length = min l.length n := by
  simp [takeRight]
  omega

theorem takeRight_of_length_le (l : List ℚ) (n : Nat) (h : l.length ≤ n) :
    takeRight l n = l := by
  simp [takeRight, Nat.sub_eq_zero_of_le h]

theorem takeRight_idem (l : List ℚ) (n : Nat) :
    takeRight (takeRight l n) n = takeRight l n := by
  apply takeRight_of_length_le
  rw [takeRight_length]
  omega

theorem set_buffer_len_data (c : Chart) (n : Nat) :
    (set_buffer_len c n).data = takeRight c.data n := by
  by_cases h : n = 0
  · subst h
    simp [set_buffer_len]
  · simp [set_buffer_len, h, takeRight_idem]

theorem foldl_min_all_eq (xs : List ℚ) (v : ℚ) (h : ∀ x ∈ xs, x = v) :
    xs.foldl min v = v := by
  induction xs with
  | nil => rfl
  | cons a as ih =>
    have ha : a = v := h a (List.mem_cons_self a as)
    have hs : ∀ x ∈ as, x = v := fun x hx => h x (List.mem_cons_of_mem a hx)
    simp [ha, min_self, ih hs]

theorem foldl_max_all_eq (xs : List ℚ) (v : ℚ) (h : ∀ x ∈ xs, x = v) :
    xs.foldl max v = v := by
  induction xs with
  | nil => rfl
  | cons a as ih =>
    have ha : a = v := h a (List.mem_cons_self a as)
    have hs : ∀ x ∈ as, x = v := fun x hx => h x (List.mem_cons_of_mem a hx)
    simp [ha, max_self, ih hs]

theorem chartRange_flat (d : List ℚ) (v : ℚ) (h1 : d ≠ []) (h2 : ∀ x ∈ d, x = v) :
    chartRange d = some (v - 1 / 10, v + 1 / 10) := by
  cases d with
  | nil => exact absurd rfl h1
  | cons x xs =>
    have hx : x = v := h2 x (List.mem_cons_self x xs)
    have hs : ∀ y ∈ xs, y = v := fun y hy => h2 y (List.mem_cons_of_mem x hy)
    simp [chartRange, hx, foldl_min_all_eq xs v hs, foldl_max_all_eq xs v hs]

theorem seqOpt_eq_none (l : List (Option ℚ)) (h : none ∈ l) : seqOpt l = none := by
  induction l with
  | nil => cases h
  | cons a as ih =>
    cases a with
    | none => rfl
    | some q =>
      have h' : none ∈ as := by
        cases h with
        | tail _ hm => exact hm
      simp [seqOpt, ih h']

/-! ## Claim theorems -/

/-- C1 (amended): every packet of at least 323 bytes (enough to cover the
secondary block) decodes to a frame with one entry per schema channel, in
schema order; every packet shorter than 232 bytes (the primary block's
required length) fails with `IncompletePacket`. -/
theorem decode_length_contract (data : List Nat) :
    (data.length < 232 → decode data = .error .incompletePacket) ∧
    (323 ≤ data.length →
      ∃ f, decode data = .ok f ∧ f.map Prod.fst = get_props ∧ f.length = 85) := by
  constructor
  · intro h
    simp [decode, h]
  · intro h
    have hnl : ¬ data.length < 232 := by omega
    have hbuf : (data.take 232 ++ (data.drop 244).take 79).length = 311 := by
      simp [List.length_take, List.length_drop]
      omega
    have hvals : (unpackFields dash_format (data.take 232 ++ (data.drop 244).take 79)).length = 85 := by
      rw [unpackFields_length, dash_format_length]
    refine ⟨get_props.zip (unpackFields dash_format (data.take 232 ++ (data.drop 244).take 79)),
      ?_, ?_, ?_⟩
    · simp [decode, hnl, unpack, hbuf, calcsize_dash_format]
    · exact List.map_fst_zip _ _ (by rw [hvals, get_props_length])
    · rw [List.length_zip, hvals, get_props_length]
      omega

/-- Instance of `decode_length_contract` at an all-zero 323-byte packet. -/
theorem decode_length_contract_apply :
    323 ≤ (List.replicate 323 (0 : Nat)).length ∧
    (∃ f, decode (List.replicate 323 0) = .ok f ∧ f.map Prod.fst = get_props ∧ f.length = 85) :=
  ⟨by simp, (decode_length_contract (List.replicate 323 0)).2 (by simp)⟩

/-- C1 counterexample: a packet of exactly the claimed minimum length
(232 bytes, here all zeros) does not decode to a frame; it fails with
`MalformedLayout` because the concatenated buffer is shorter than the
311 bytes the wire layout requires. -/
theorem decode_at_minimum_length_fails :
    decode (List.replicate 232 0) = .error .malformedLayout := by
  rfl

/-- C2 (amended): the log header is `timestamp` followed by the 34 charted
channel names in chart-definition (category) order — the order of
`data_buffer.keys()`, which is also the column order `_log_to_file` writes —
each a schema channel, but not the full schema and not in schema order. -/
theorem log_header_chart_order :
    logHeader = "timestamp" :: dataBufferKeys ∧
    dataBufferKeys.length = 34 ∧
    (dataBufferKeys.all fun k => get_props.contains k) = true ∧
    dataBufferKeys ≠ get_props ∧
    ∀ snapshot, (logRowCells snapshot).length + 1 = logHeader.length := by
  refine ⟨rfl, by decide, by decide, by decide, fun snapshot => ?_⟩
  simp [logRowCells, logHeader]

/-- C2 counterexample: the written header is not `timestamp` followed by
the schema channel names in schema order. -/
theorem log_header_not_schema_order :
    logHeader ≠ "timestamp" :: get_props := by
  decide

/-- C4: the bound transforms at the spec's example points: 255 on each
0–255 control input gives 100.0, steering 127 gives 100.0, speed 10 m/s
gives 22.3694 mph (within 1e-3), torque −5 clamps to 0. -/
theorem transform_example_values :
    applyTransform "accel" 255 = 100 ∧
    applyTransform "brake" 255 = 100 ∧
    applyTransform "clutch" 255 = 100 ∧
    applyTransform "handbrake" 255 = 100 ∧
    applyTransform "steer" 127 = 100 ∧
    |applyTransform "speed" 10 - 22.3694| ≤ 1 / 1000 ∧
    applyTransform "torque" (-5) = 0 := by
  have ha : applyTransform "accel" 255 = scale_controls 255 := rfl
  have hb : applyTransform "brake" 255 = scale_controls 255 := rfl
  have hc : applyTransform "clutch" 255 = scale_controls 255 := rfl
  have hh : applyTransform "handbrake" 255 = scale_controls 255 := rfl
  have hst : applyTransform "steer" 127 = norm_steer 127 := rfl
  have hsp : applyTransform "speed" 10 = to_mph 10 := rfl
  have ht : applyTransform "torque" (-5) = clamp_zero (-5) := rfl
  rw [ha, hb, hc, hh, hst, hsp, ht]
  norm_num [scale_controls, norm_steer, to_mph, clamp_zero]

/-- C5: for a packet long enough to pass the primary-length check, decode
splits off bytes [0, 232) and [244, 323), concatenates them, and fails
with `MalformedLayout` exactly when that buffer's length differs from the
311 bytes the declared field widths require. -/
theorem decode_gap_concat_layout (data : List Nat) (h : 232 ≤ data.length) :
    calcsize dash_format = 311 ∧
    (decode data = .error .malformedLayout ↔
      (data.take 232 ++ (data.drop 244).take 79).length ≠ 311) := by
  have hnl : ¬ data.length < 232 := by omega
  refine ⟨calcsize_dash_format, ?_⟩
  by_cases hlen : (data.take 232 ++ (data.drop 244).take 79).length = 311
  · simp only [decode, unpack, calcsize_dash_format, if_neg hnl, if_pos hlen]
    exact iff_of_false (by simp) (fun hn => hn hlen)
  · simp only [decode, unpack, calcsize_dash_format, if_neg hnl, if_neg hlen]
    exact iff_of_true trivial hlen

/-- Instance of `decode_gap_concat_layout` at an all-zero 232-byte packet. -/
theorem decode_gap_concat_layout_apply :
    232 ≤ (List.replicate 232 (0 : Nat)).length ∧
    (calcsize dash_format = 311 ∧
      (decode (List.replicate 232 0) = .error .malformedLayout ↔
        ((List.replicate 232 (0 : Nat)).take 232 ++
          ((List.replicate 232 (0 : Nat)).drop 244).take 79).length ≠ 311)) :=
  ⟨by simp, decode_gap_concat_layout (List.replicate 232 0) (by simp)⟩

/-- C6 (code bug): seeking to index 0 of a one-row replay log stores the
single-row window twice — `update_replay_frame` assigns the window to
`chart.data` and then calls `add_values` with a copy of the same data,
extending the deque with itself — instead of the claimed single trailing
row. -/
theorem replay_seek_duplicates_window :
    (update_replay_frame [[("speed", CsvField.num 5)]] 0
        [("speed", { cap := 150, data := [], rangeY := none })]).map
      (fun kc => (kc.1, kc.2.data)) = [("speed", [(5 : ℚ), 5])] ∧
    [(5 : ℚ), 5] ≠ [(5 : ℚ)] := by
  constructor
  · decide
  · decide

/-- C7: appending `cap + k` scalars to an empty window retains exactly the
last `cap` of them, in arrival order. -/
theorem window_fifo_eviction (cap k : Nat) (vals : List ℚ) (h : vals.length = cap + k) :
    (add_values { cap := cap, data := [], rangeY := none } vals).data = vals.drop k ∧
    (vals.drop k).length = cap := by
  have hk : vals.length - cap = k := by omega
  constructor
  · simp [add_values, takeRight, hk]
  · rw [List.length_drop, h]
    omega

/-- Instance of `window_fifo_eviction` with capacity 2 and 3 appends. -/
theorem window_fifo_eviction_apply :
    ([(1 : ℚ), 2, 3].length = 2 + 1) ∧
    ((add_values { cap := 2, data := [], rangeY := none } [(1 : ℚ), 2, 3]).data =
        [(1 : ℚ), 2, 3].drop 1 ∧
      ([(1 : ℚ), 2, 3].drop 1).length = 2) :=
  ⟨by decide, window_fifo_eviction 2 1 [1, 2, 3] (by decide)⟩

/-- C8: resizing a window to capacity `n` keeps the capacity, retains the
last `n` values when `n` is below the current length, and retains
everything unchanged otherwise — the most recent `min(m, n)` samples. -/
theorem window_resize_retains (c : Chart) (n : Nat) :
    (n < c.data.length → (set_buffer_len c n).data = c.data.drop (c.data.length - n)) ∧
    (c.data.length ≤ n → (set_buffer_len c n).data = c.data) ∧
    (set_buffer_len c n).data.length = min c.data.length n ∧
    (set_buffer_len c n).cap = n := by
  refine ⟨fun _ => ?_, fun h => ?_, ?_, ?_⟩
  · rw [set_buffer_len_data]
    rfl
  · rw [set_buffer_len_data]
    exact takeRight_of_length_le _ _ h
  · rw [set_buffer_len_data, takeRight_length]
  · by_cases h : n = 0
    · subst h
      rfl
    · simp [set_buffer_len, h]

/-- Instance of `window_resize_retains` shrinking a 3-sample window to 2. -/
theorem window_resize_retains_apply :
    (2 < ([(1 : ℚ), 2, 3] : List ℚ).length) ∧
    (set_buffer_len { cap := 150, data := [(1 : ℚ), 2, 3], rangeY := none } 2).data =
      [(1 : ℚ), 2, 3].drop ([(1 : ℚ), 2, 3].length - 2) :=
  ⟨by decide,
    (window_resize_retains { cap := 150, data := [(1 : ℚ), 2, 3], rangeY := none } 2).1
      (by decide)⟩

/-- C9: when the window after an `add_values` mutation is nonempty and all
its contents equal `v`, the derived y-axis range is padded to
`(v - 0.1, v + 0.1)`. -/
theorem flat_window_range (c : Chart) (vals : List ℚ) (v : ℚ)
    (h1 : (add_values c vals).data ≠ []) (h2 : ∀ x ∈ (add_values c vals).data, x = v) :
    (add_values c vals).rangeY = some (v - 1 / 10, v + 1 / 10) := by
  have hr := chartRange_flat _ v h1 h2
  simp only [add_values] at hr ⊢
  rw [hr]

/-- Instance of `flat_window_range` on a window holding two copies of 3. -/
theorem flat_window_range_apply :
    ((add_values { cap := 150, data := [], rangeY := none } [(3 : ℚ), 3]).data ≠ [] ∧
      ∀ x ∈ (add_values { cap := 150, data := [], rangeY := none } [(3 : ℚ), 3]).data, x = 3) ∧
    (add_values { cap := 150, data := [], rangeY := none } [(3 : ℚ), 3]).rangeY =
      some (3 - 1 / 10, 3 + 1 / 10) :=
  ⟨⟨by decide, by decide⟩,
    flat_window_range { cap := 150, data := [], rangeY := none } [(3 : ℚ), 3] 3
      (by decide) (by decide)⟩

/-- C10: an in-range replay seek updates every chart independently from its
own column only, and a chart whose selected window contains a malformed
(non-empty, unparseable) field is left entirely unchanged — data, capacity
and display range. -/
theorem replay_malformed_channel_untouched (replay : List Row) (index : Nat)
    (charts : List (String × Chart)) (h : index < replay.length) :
    update_replay_frame replay index charts =
      charts.map (fun kc => (kc.1, chartSeekOne replay kc.1 index 150 kc.2)) ∧
    ∀ key c, (∃ i, index + 1 - 150 ≤ i ∧ i ≤ index ∧
        rowGet (replay.getD i []) key = .malformed) →
      chartSeekOne replay key index 150 c = c := by
  constructor
  · simp [update_replay_frame, Nat.not_le_of_lt h]
  · rintro key c ⟨i, hi1, hi2, hm⟩
    have hnone : replayWindowVals replay key index 150 = none := by
      apply seqOpt_eq_none
      refine List.mem_map.mpr ⟨i, ?_, ?_⟩
      · rw [List.mem_range'_1]
        omega
      · show parseField (rowGet (replay.getD i []) key) = none
        rw [hm]
        rfl
    simp [chartSeekOne, hnone]

/-- Instance of `replay_malformed_channel_untouched` on a two-channel log
whose first channel holds an unparseable field. -/
theorem replay_malformed_channel_untouched_apply :
    (0 < ([[("speed", CsvField.malformed), ("gear", CsvField.num 3)]] : List Row).length) ∧
    (update_replay_frame [[("speed", CsvField.malformed), ("gear", CsvField.num 3)]] 0
        [("speed", { cap := 150, data := [(7 : ℚ)], rangeY := none }),
         ("gear", { cap := 150, data := [], rangeY := none })] =
      [("speed", chartSeekOne [[("speed", CsvField.malformed), ("gear", CsvField.num 3)]]
          "speed" 0 150 { cap := 150, data := [(7 : ℚ)], rangeY := none }),
       ("gear", chartSeekOne [[("speed", CsvField.malformed), ("gear", CsvField.num 3)]]
          "gear" 0 150 { cap := 150, data := [], rangeY := none })] ∧
      ∀ key c, (∃ i, 0 + 1 - 150 ≤ i ∧ i ≤ 0 ∧
          rowGet (([[("speed", CsvField.malformed), ("gear", CsvField.num 3)]] : List Row).getD i [])
            key = .malformed) →
        chartSeekOne [[("speed", CsvField.malformed), ("gear", CsvField.num 3)]] key 0 150 c = c) := by
  refine ⟨by decide, ?_⟩
  have h := replay_malformed_channel_untouched
    [[("speed", CsvField.malformed), ("gear", CsvField.num 3)]] 0
    [("speed", { cap := 150, data := [(7 : ℚ)], rangeY := none }),
     ("gear", { cap := 150, data := [], rangeY := none })] (by decide)
  exact ⟨h.1, h.2⟩

/-- C3 (code bug): one frame with `gear = 3` (identity transform), logged
and replayed: the live buffer+flush path leaves the gear window holding
the single value, while loading the written log and seeking to index
`N - 1 = 0` holds it twice, so the replay window differs from the live
window for `N = 1 < W = 150`. -/
theorem replay_live_equivalence_fails_short :
    ((flushCharts
        (appendToBuffers (dataBufferKeys.map fun k => (k, ([] : List ℚ)))
          [("gear", PyVal.num 3)])
        (dataBufferKeys.map fun k => (k, Chart.mk 150 [] none))).lookup "gear").map
      Chart.data = some [(3 : ℚ)] ∧
    ((update_replay_frame
        [dataBufferKeys.zip (logRowCells (processFrame [("gear", PyVal.num 3)]))] 0
        (dataBufferKeys.map fun k => (k, Chart.mk 150 [] none))).lookup "gear").map
      Chart.data = some [(3 : ℚ), 3] ∧
    some [(3 : ℚ), 3] ≠ some [(3 : ℚ)] := by
  refine ⟨by decide, by decide, by decide⟩

end FH5
